import Mathlib

/-!
Verification of the DELLEMC Z9100 `sonic_platform/chassis.py` platform adapter.

The Python module is shallowly embedded: the ambient filesystem is a map from
path/register names to a `FileState` (absent, unreadable, or readable content),
the raw I/O-port device is an `IoPortState` record describing the outcomes of
`os.open` / `os.lseek` / `os.read`, and a Python call that can raise is a
`PyResult` (normal value or propagated exception).  All definitions are
executable and kernel-reducible so that concrete runs evaluate by `decide`.
-/

namespace Z9100

/-- The exception classes that the embedded code can raise. -/
inductive PyError
  | valueError
  | osError
  | indexError
  | keyError
deriving DecidableEq

/-- Outcome of a Python call: a returned value, or a propagated exception. -/
inductive PyResult (α : Type)
  | ok (a : α)
  | error (e : PyError)
deriving DecidableEq

/-- What a given file looks like to `os.path.isfile` / `open` / `read`:
missing, present but failing on open/read, or readable with given content. -/
inductive FileState
  | absent
  | unreadable
  | content (s : String)
deriving DecidableEq

/-! Python string primitives.

Implemented over `List Char` by structural recursion so that the kernel can
evaluate them (`String.splitOn` and friends do not kernel-reduce). -/

/-- Python `s.rstrip(cs)`: drop trailing characters belonging to `cs`. -/
def pyRstrip (s : String) (cs : List Char) : String :=
  String.mk ((s.data.reverse.dropWhile (fun c => cs.contains c)).reverse)

/-- Python `s.lstrip(cs)`: drop leading characters belonging to `cs`. -/
def pyLstrip (s : String) (cs : List Char) : String :=
  String.mk (s.data.dropWhile (fun c => cs.contains c))

/-- Core of Python `s.split(sep)` for a one-character separator, on char
lists: `"a:b" ↦ ["a","b"]`, `"ab" ↦ ["ab"]`, `"" ↦ [""]`. -/
def splitCharList (sep : Char) : List Char → List (List Char)
  | [] => [[]]
  | c :: cs =>
    let r := splitCharList sep cs
    if c = sep then [] :: r
    else
      match r with
      | [] => [[c]]
      | h :: t => (c :: h) :: t

/-- Python `s.split(sep)` for a one-character separator. -/
def pySplit (s : String) (sep : Char) : List String :=
  (splitCharList sep s.data).map String.mk

/-- Strip leading and trailing whitespace (as Python's numeric constructors
do before parsing). -/
def stripWs (l : List Char) : List Char :=
  ((l.dropWhile Char.isWhitespace).reverse.dropWhile Char.isWhitespace).reverse

/-- Value of a decimal digit string (caller checks all chars are digits). -/
def digitsToNat (l : List Char) : Nat :=
  l.foldl (fun a c => 10 * a + (c.toNat - 48)) 0

/-- Is `c` a hexadecimal digit (`0-9`, `a-f`, `A-F`)? -/
def isHexDigitChar (c : Char) : Bool :=
  (48 ≤ c.toNat && c.toNat ≤ 57) ||
  (97 ≤ c.toNat && c.toNat ≤ 102) ||
  (65 ≤ c.toNat && c.toNat ≤ 70)

/-- Value of one hexadecimal digit. -/
def hexVal (c : Char) : Nat :=
  if c.toNat ≤ 57 then c.toNat - 48
  else if 97 ≤ c.toNat then c.toNat - 87
  else c.toNat - 55

/-- Value of a hexadecimal digit string. -/
def hexDigitsToNat (l : List Char) : Nat :=
  l.foldl (fun a c => 16 * a + hexVal c) 0

/-- Python `int(s)`: optional sign then a nonempty run of decimal digits,
surrounded by optional whitespace; anything else is a `ValueError` (`none`).
(The Python-3.6 underscore extension is irrelevant to this Python-2-era code
and is not modelled.) -/
def pyIntParse (s : String) : Option Int :=
  match stripWs s.data with
  | [] => none
  | '-' :: rest =>
    if !rest.isEmpty && rest.all Char.isDigit then some (-(digitsToNat rest : Int)) else none
  | '+' :: rest =>
    if !rest.isEmpty && rest.all Char.isDigit then some (digitsToNat rest : Int) else none
  | l =>
    if l.all Char.isDigit then some (digitsToNat l : Int) else none

/-- Unsigned part of Python `int(s, 16)`: an optional `0x`/`0X` then a
nonempty run of hex digits. -/
def hexCore (l : List Char) : Option Nat :=
  let l' := match l with
    | '0' :: 'x' :: r => r
    | '0' :: 'X' :: r => r
    | r => r
  if !l'.isEmpty && l'.all isHexDigitChar then some (hexDigitsToNat l') else none

/-- Python `int(s, 16)`: optional sign, optional `0x` marker, nonempty hex
digits, optional surrounding whitespace; otherwise `ValueError` (`none`). -/
def pyIntHexParse (s : String) : Option Int :=
  match stripWs s.data with
  | '-' :: rest => (hexCore rest).map (fun n => -(n : Int))
  | '+' :: rest => (hexCore rest).map (fun n => (n : Int))
  | l => (hexCore l).map (fun n => (n : Int))

/-- The exact decimal value denoted by a parsed float literal:
`(if neg then -1 else 1) * mantissa * 10 ^ exponent`.  The rounding of this
value to an IEEE binary64 double is not modelled; no claim depends on it. -/
structure DecimalValue where
  neg : Bool
  mantissa : Nat
  exponent : Int
deriving DecidableEq

/-- Result of Python `float(s)`: a finite decimal value, a signed infinity,
or a NaN. -/
inductive PyFloat
  | finite (d : DecimalValue)
  | infinite (neg : Bool)
  | nan
deriving DecidableEq

/-- Exponent field of a float literal: optional sign, nonempty digits. -/
def parseExpPart : List Char → Option Int
  | '-' :: r => if !r.isEmpty && r.all Char.isDigit then some (-(digitsToNat r : Int)) else none
  | '+' :: r => if !r.isEmpty && r.all Char.isDigit then some (digitsToNat r : Int) else none
  | r => if !r.isEmpty && r.all Char.isDigit then some (digitsToNat r : Int) else none

/-- Mantissa of a float literal: digits with at most one point, at least one
digit overall.  Returns the digits' value and the decimal shift. -/
def parseMantissa (m : List Char) : Option (Nat × Int) :=
  match splitCharList '.' m with
  | [a] =>
    if !a.isEmpty && a.all Char.isDigit then some (digitsToNat a, 0) else none
  | [a, b] =>
    if (!a.isEmpty || !b.isEmpty) && a.all Char.isDigit && b.all Char.isDigit then
      some (digitsToNat (a ++ b), -(b.length : Int))
    else none
  | _ => none

/-- Python `float(s)`: optional whitespace, optional sign, then either an
`inf`/`infinity`/`nan` word (case-insensitive) or a decimal literal with
optional fraction and exponent.  Anything else is a `ValueError` (`none`). -/
def pyFloatParse (s : String) : Option PyFloat :=
  match stripWs s.data with
  | [] => none
  | l =>
    let sb : Bool × List Char :=
      match l with
      | '-' :: r => (true, r)
      | '+' :: r => (false, r)
      | r => (false, r)
    let low := sb.2.map Char.toLower
    if low = "inf".data || low = "infinity".data then some (.infinite sb.1)
    else if low = "nan".data then some .nan
    else
      match splitCharList 'e' low with
      | [m] => (parseMantissa m).map (fun p => .finite ⟨sb.1, p.1, p.2⟩)
      | [m, e] =>
        match parseMantissa m, parseExpPart e with
        | some p, some ex => some (.finite ⟨sb.1, p.1, p.2 + ex⟩)
        | _, _ => none
      | _ => none

/-! Reboot-cause constants and tables (chassis.py lines 67-77).

Modelled from the spec: the concrete string values of the `REBOOT_CAUSE_*`
constants live in the external `ChassisBase` class (out of scope); only the
identity of each constant matters, so each is rendered by its own name. -/

def REBOOT_CAUSE_POWER_LOSS : String := "REBOOT_CAUSE_POWER_LOSS"

def REBOOT_CAUSE_WATCHDOG : String := "REBOOT_CAUSE_WATCHDOG"

def REBOOT_CAUSE_NON_HARDWARE : String := "REBOOT_CAUSE_NON_HARDWARE"

def REBOOT_CAUSE_HARDWARE_OTHER : String := "REBOOT_CAUSE_HARDWARE_OTHER"

def REBOOT_CAUSE_THERMAL_OVERLOAD_CPU : String := "REBOOT_CAUSE_THERMAL_OVERLOAD_CPU"

def REBOOT_CAUSE_THERMAL_OVERLOAD_ASIC : String := "REBOOT_CAUSE_THERMAL_OVERLOAD_ASIC"

def REBOOT_CAUSE_INSUFFICIENT_FAN_SPEED : String := "REBOOT_CAUSE_INSUFFICIENT_FAN_SPEED"

/-- Python dict membership `k in d` for an int-keyed dict rendered as an
association list. -/
def dictMem (d : List (Int × String)) (k : Int) : Bool :=
  d.any (fun kv => kv.1 == k)

/-- Python dict indexing `d[k]`: raises `KeyError` on a missing key. -/
def dictGet (d : List (Int × String)) (k : Int) : PyResult String :=
  match d.find? (fun kv => kv.1 == k) with
  | some kv => .ok kv.2
  | none => .error .keyError

/-- Lines 67-71 of chassis.py: the reset-reason table. -/
def reset_reason_dict : List (Int × String) :=
  [(11, REBOOT_CAUSE_POWER_LOSS),
   (33, REBOOT_CAUSE_WATCHDOG),
   (44, REBOOT_CAUSE_NON_HARDWARE),
   (55, REBOOT_CAUSE_NON_HARDWARE)]

/-- Lines 73-77 of chassis.py: the power-on-reason table. -/
def power_reason_dict : List (Int × String) :=
  [(11, REBOOT_CAUSE_POWER_LOSS),
   (22, REBOOT_CAUSE_THERMAL_OVERLOAD_CPU),
   (33, REBOOT_CAUSE_THERMAL_OVERLOAD_ASIC),
   (44, REBOOT_CAUSE_INSUFFICIENT_FAN_SPEED)]

/-! Register mailbox (Chassis._get_pmc_register, lines 115-132).

The mailbox directory prefix (`MAILBOX_DIR`, resolved once at import time
from the hwmon root) is fixed for the process, so path construction
`MAILBOX_DIR + '/' + reg_name` is injective in the register name; the
environment is therefore keyed directly by register name. -/

/-- Source `Chassis._get_pmc_register`: `'ERR'` if the register file is missing
(early return, before any stripping) or if the guarded `read` raises;
otherwise the content.  The result then has trailing `'\r'`/`'\n'` and
leading spaces stripped.  The function itself never raises: the only
fallible call sits inside `try`/`except`. -/
def get_pmc_register (fs : String → FileState) (reg_name : String) : String :=
  match fs reg_name with
  | .absent => "ERR"
  | .unreadable => pyLstrip (pyRstrip "ERR" ['\r', '\n']) [' ']
  | .content s => pyLstrip (pyRstrip s ['\r', '\n']) [' ']

/-- Handle accounting for `_get_pmc_register`: the body reads through
`with open(...)`, whose context manager closes the file on every exit of the
block, normal or exceptional.  Value = handles still open on return. -/
def get_pmc_register_open_handles (fs : String → FileState) (reg_name : String) : Nat :=
  match fs reg_name with
  | .absent => 0        -- isfile guard returned early; nothing was opened
  | .unreadable => 1 - 1  -- opened, read raised, with-block closed it
  | .content _ => 1 - 1   -- opened, read, with-block closed it on exit

/-- Python `int(...)` as used on register contents: `ValueError` when the
string does not parse. -/
def pyInt (s : String) : PyResult Int :=
  match pyIntParse s with
  | some n => .ok n
  | none => .error .valueError

/-- Source `Chassis.get_reboot_cause` (lines 194-221).  Reads and int-parses the
two registers (each `int(...)` raises `ValueError` on non-numeric content,
e.g. the `'ERR'` sentinel); then: reset reason 11 consults the power-reason
table, any other reset reason consults the reset-reason table, and both
`if k in dict` misses fall through to the shared final return. -/
def get_reboot_cause (fs : String → FileState) : PyResult (String × Option String) :=
  match pyInt (get_pmc_register fs "smf_reset_reason") with
  | .error e => .error e
  | .ok reset_reason =>
    match pyInt (get_pmc_register fs "smf_poweron_reason") with
    | .error e => .error e
    | .ok power_reason =>
      if reset_reason = 11 then
        if dictMem power_reason_dict power_reason then
          match dictGet power_reason_dict power_reason with
          | .error e => .error e
          | .ok cause => .ok (cause, none)
        else .ok (REBOOT_CAUSE_HARDWARE_OTHER, some "Invalid Reason")
      else
        if dictMem reset_reason_dict reset_reason then
          match dictGet reset_reason_dict reset_reason with
          | .error e => .error e
          | .ok cause => .ok (cause, none)
        else .ok (REBOOT_CAUSE_HARDWARE_OTHER, some "Invalid Reason")

/-! CPLD and FPGA version readers (Chassis._get_cpld_version,
Chassis._get_fpga_version, Chassis.get_firmware_version). -/

/-- Environment of the CPLD1 raw-I/O path: the outcome of `os.open` on
`/dev/port` (Python's `os.open` returns a non-negative descriptor or raises
`OSError`; it never returns a negative number), the offset reported by
`os.lseek`, and the byte delivered by `os.read` (`none`: the read raises). -/
structure IoPortState where
  openOutcome : Option Nat
  seekResult : Int
  readByte : Option Nat
deriving DecidableEq

/-- The `"%d.%d" % (((v & 0xF0) >> 4), v & 0xF)` decode (lines 251/271):
high nibble, a dot, low nibble, each in decimal.  `Int.land`/`Int.shiftRight`
match Python's two's-complement bitwise semantics on `int`. -/
def decode_nibbles (cpld_version : Int) : String :=
  Int.repr (Int.shiftRight (Int.land cpld_version 0xF0) 4) ++ "." ++
    Int.repr (Int.land cpld_version 0xF)

/-- The sysfs file consulted for CPLD2-4 (lines 253-254):
`/sys/class/i2c-adapter/i2c-{12+n}/{12+n}-003e/iom_cpld_vers`. -/
def cpld_version_file (cpld_number : Int) : String :=
  "/sys/class/i2c-adapter/i2c-" ++ Int.repr (12 + cpld_number) ++ "/" ++
    Int.repr (12 + cpld_number) ++ "-003e/iom_cpld_vers"

/-- Source `Chassis._get_cpld_version` (lines 235-271), paired with the number of
acquired handles still open when the call returns or its exception
propagates.

CPLD1 path: `os.open('/dev/port')` raises `OSError` on failure (so the
source's `fd < 0` guard can never fire); an `os.lseek` result other than
0x100 returns `'NA'` without `os.close`; a raising `os.read` propagates
with the descriptor still open; the success path reads one byte, closes,
and returns its nibble decode.

CPLD2-4 path: missing file or failing read returns `'NA'` (the `with` block
releases the handle); content equal to `"read error"` — compared before any
stripping — returns `'NA'`; otherwise the content is rstripped of
`'\r'`/`'\n'`, split on `':'` (`IndexError` if no second field), and the
second field is parsed as hex (`ValueError` if malformed), then decoded. -/
def get_cpld_version (io_st : IoPortState) (fs : String → FileState)
    (cpld_number : Int) : PyResult String × Nat :=
  if cpld_number = 1 then
    match io_st.openOutcome with
    | none => (.error .osError, 0)
    | some fd =>
      if (fd : Int) < 0 then (.ok "NA", 1)
      else if io_st.seekResult ≠ 0x100 then (.ok "NA", 1)
      else
        match io_st.readByte with
        | none => (.error .osError, 1)
        | some b => (.ok (decode_nibbles (Int.ofNat b)), 0)
  else
    match fs (cpld_version_file cpld_number) with
    | .absent => (.ok "NA", 0)
    | .unreadable => (.ok "NA", 0)
    | .content ver_str =>
      if ver_str = "read error" then (.ok "NA", 0)
      else
        match (pySplit (pyRstrip ver_str ['\r', '\n']) ':')[1]? with
        | none => (.error .indexError, 0)
        | some field =>
          match pyIntHexParse field with
          | none => (.error .valueError, 0)
          | some v => (.ok (decode_nibbles v), 0)

/-- Source `Chassis._get_fpga_version` (lines 273-275): `float(...)` of the
`smf_firmware_ver` register with no surrounding `try`/`except`. -/
def get_fpga_version (fs : String → FileState) : PyResult PyFloat :=
  match pyFloatParse (get_pmc_register fs "smf_firmware_ver") with
  | some f => .ok f
  | none => .error .valueError

/-- Outcome of the BIOS version shell command: captured stdout, or a raised
`OSError` at launch. -/
inductive CmdOutcome
  | ran (stdout : String)
  | oserr
deriving DecidableEq

/-- Source `Chassis._get_command_result` (lines 223-233): trailing newlines of the
captured output are stripped; a launch failure yields `''`. -/
def get_command_result (cmd : CmdOutcome) : String :=
  match cmd with
  | .ran stdout => pyRstrip stdout ['\n']
  | .oserr => ""

def COMPONENT_BIOS : String := "BIOS"

def SWITCH_CPLD1 : String := "CPLD1"

def SWITCH_CPLD2 : String := "CPLD2"

def SWITCH_CPLD3 : String := "CPLD3"

def SWITCH_CPLD4 : String := "CPLD4"

def SMF_FPGA : String := "FPGA1"

/-- The component registry built at lines 108-113, in append order. -/
def component_name_list : List String :=
  [COMPONENT_BIOS, SWITCH_CPLD1, SWITCH_CPLD2, SWITCH_CPLD3, SWITCH_CPLD4, SMF_FPGA]

/-- A firmware version as returned by `get_firmware_version`: a string, the
float parsed for the FPGA, or Python `None`. -/
inductive FwValue
  | str (s : String)
  | num (f : PyFloat)
  | pynone
deriving DecidableEq

/-- Source `Chassis.get_firmware_version` (lines 277-300): dispatch on the
component name; unknown names fall through to `return None`; the version
readers' exceptions propagate (paired handle count as above). -/
def get_firmware_version (io_st : IoPortState) (fs : String → FileState)
    (cmd : CmdOutcome) (component_name : String) : PyResult FwValue × Nat :=
  if component_name_list.contains component_name then
    if component_name = COMPONENT_BIOS then (.ok (.str (get_command_result cmd)), 0)
    else if component_name = SWITCH_CPLD1 then
      match get_cpld_version io_st fs 1 with
      | (.ok s, h) => (.ok (.str s), h)
      | (.error e, h) => (.error e, h)
    else if component_name = SWITCH_CPLD2 then
      match get_cpld_version io_st fs 2 with
      | (.ok s, h) => (.ok (.str s), h)
      | (.error e, h) => (.error e, h)
    else if component_name = SWITCH_CPLD3 then
      match get_cpld_version io_st fs 3 with
      | (.ok s, h) => (.ok (.str s), h)
      | (.error e, h) => (.error e, h)
    else if component_name = SWITCH_CPLD4 then
      match get_cpld_version io_st fs 4 with
      | (.ok s, h) => (.ok (.str s), h)
      | (.error e, h) => (.error e, h)
    else if component_name = SMF_FPGA then
      match get_fpga_version fs with
      | .ok f => (.ok (.num f), 0)
      | .error e => (.error e, 0)
    else (.ok .pynone, 0)
  else (.ok .pynone, 0)

/-! Construction-time registries (Chassis.__init__, lines 79-113). -/

def MAX_Z9100_FANTRAY : Nat := 5

def MAX_Z9100_FAN : Nat := 2

/-- Table `EEPROM_I2C_MAPPING` (lines 45-54).  The dict's keys are exactly
0..31, so it is rendered positionally: entry `i` is the `[bus, addr]` pair
for port `i` (note the deliberately remapped entries for ports 12-15). -/
def EEPROM_I2C_MAPPING : List (Nat × Nat) :=
  [(9, 18), (9, 19), (9, 20), (9, 21),
   (9, 22), (9, 23), (9, 24), (9, 25),
   (8, 26), (8, 27), (8, 28), (8, 29),
   (8, 31), (8, 30), (8, 33), (8, 32),
   (7, 34), (7, 35), (7, 36), (7, 37),
   (7, 38), (7, 39), (7, 40), (7, 41),
   (6, 42), (6, 43), (6, 44), (6, 45),
   (6, 46), (6, 47), (6, 48), (6, 49)]

/-- Table `PORT_I2C_MAPPING` (lines 55-65), rendered positionally like
`EEPROM_I2C_MAPPING`: entry `i` is `[i2cLine, portIdx]` for port `i`. -/
def PORT_I2C_MAPPING : List (Nat × Nat) :=
  [(14, 0), (14, 1), (14, 2), (14, 3),
   (14, 4), (14, 5), (14, 6), (14, 7),
   (14, 8), (14, 9), (14, 10), (14, 11),
   (15, 0), (15, 1), (15, 2), (15, 3),
   (15, 4), (15, 5), (15, 6), (15, 7),
   (15, 8), (15, 9), (16, 0), (16, 1),
   (16, 2), (16, 3), (16, 4), (16, 5),
   (16, 6), (16, 7), (16, 8), (16, 9)]

/-- The arguments the constructor hands to `Sfp(...)` for one port. -/
structure SfpRec where
  index : Nat
  sfp_type : String
  eeprom_path : String
  sfp_control : String
  port_i2c : Nat
deriving DecidableEq

/-- The arguments the constructor hands to `Fan(...)` for one slot. -/
structure FanRec where
  tray : Nat
  fan : Nat
deriving DecidableEq

/-- Python `eeprom_base.format(bus, addr)` (line 89). -/
def eeprom_base (bus addr : Nat) : String :=
  "/sys/class/i2c-adapter/i2c-" ++ Nat.repr bus ++ "/i2c-" ++ Nat.repr addr ++
    "/" ++ Nat.repr addr ++ "-0050/eeprom"

/-- Python `sfp_ctrl_base.format(bus)` (line 90). -/
def sfp_ctrl_base (bus : Nat) : String :=
  "/sys/class/i2c-adapter/i2c-" ++ Nat.repr bus ++ "/" ++ Nat.repr bus ++ "-003e/"

/-- The transceiver registry `_sfp_list` after `__init__` (lines 91-97):
one `Sfp` per port index 0..31, in index order, with paths computed purely
from the two static tables (no I/O is modelled because none is performed).
Modelled from the spec: the external `ChassisBase` provides the initially
empty `_sfp_list` registry that this loop appends to. -/
def chassis_sfp_list : List SfpRec :=
  (List.range 32).map (fun index =>
    let e := EEPROM_I2C_MAPPING.getD index (0, 0)
    let p := PORT_I2C_MAPPING.getD index (0, 0)
    { index := index
      sfp_type := "QSFP"
      eeprom_path := eeprom_base e.1 e.2
      sfp_control := sfp_ctrl_base p.1
      port_i2c := p.2 })

/-- The fan registry `_fan_list` after `__init__` (lines 102-105): the
tray-major double loop `for i in range(5): for j in range(2)`.
Modelled from the spec: the external `ChassisBase` provides the initially
empty `_fan_list` registry that this loop appends to. -/
def chassis_fan_list : List FanRec :=
  ((List.range MAX_Z9100_FANTRAY).map (fun i =>
    (List.range MAX_Z9100_FAN).map (fun j => FanRec.mk i j))).flatten

/-! Helper lemmas. -/

/-- Bitwise set difference cannot create bits: if `a < 2 ^ n` then so is
`Nat.ldiff a m`. -/
theorem ldiff_lt_two_pow (a m n : Nat) (ha : a < 2 ^ n) : Nat.ldiff a m < 2 ^ n := by
  apply Nat.lt_pow_two_of_testBit
  intro i hi
  rw [Nat.testBit_ldiff]
  have hb : a.testBit i = false :=
    Nat.testBit_lt_two_pow (lt_of_lt_of_le ha (Nat.pow_le_pow_right (by norm_num) hi))
  simp [hb]

/-- The nibble decode always renders as `"{h}.{l}"` with `h, l < 16`,
whatever integer it is fed (the masks keep only the low byte's nibbles,
also for negative inputs via two's complement). -/
theorem decode_nibbles_shape (v : Int) :
    ∃ h l, h < 16 ∧ l < 16 ∧ decode_nibbles v = Nat.repr h ++ "." ++ Nat.repr l := by
  cases v with
  | ofNat m =>
    refine ⟨(m &&& 240) >>> 4, m &&& 15, ?_, ?_, ?_⟩
    · have h1 : m &&& 240 ≤ 240 := Nat.and_le_right
      have h2 : (m &&& 240) >>> 4 = (m &&& 240) / 2 ^ 4 := Nat.shiftRight_eq_div_pow _ 4
      have h3 : (m &&& 240) / 2 ^ 4 ≤ 240 / 2 ^ 4 := Nat.div_le_div_right h1
      omega
    · have h1 : m &&& 15 ≤ 15 := Nat.and_le_right
      omega
    · simp [decode_nibbles, Int.land, Int.shiftRight, Int.repr]
  | negSucc m =>
    refine ⟨Nat.ldiff 240 m >>> 4, Nat.ldiff 15 m, ?_, ?_, ?_⟩
    · have h1 : Nat.ldiff 240 m < 2 ^ 8 := ldiff_lt_two_pow 240 m 8 (by norm_num)
      have h2 : Nat.ldiff 240 m >>> 4 = Nat.ldiff 240 m / 2 ^ 4 := Nat.shiftRight_eq_div_pow _ 4
      have h3 : Nat.ldiff 240 m / 2 ^ 4 ≤ 255 / 2 ^ 4 := Nat.div_le_div_right (by omega)
      omega
    · have h1 : Nat.ldiff 15 m < 2 ^ 4 := ldiff_lt_two_pow 15 m 4 (by norm_num)
      omega
    · simp [decode_nibbles, Int.land, Int.shiftRight, Int.repr]

/-- The nibble decode can never collide with the `'NA'` sentinel. -/
theorem decode_nibbles_ne (v : Int) : decode_nibbles v ≠ "NA" := by
  obtain ⟨h, l, hh, hl, e⟩ := decode_nibbles_shape v
  rw [e]
  exact (by decide : ∀ a, a < 16 → ∀ b, b < 16 → Nat.repr a ++ "." ++ Nat.repr b ≠ "NA") h hh l hl

/-- A fully-failing environment: `/dev/port` does not open, the seek lands
at 0, reads raise, used where the I/O port is irrelevant. -/
def io0 : IoPortState := ⟨none, 0, none⟩

/-! Claims. -/

/-- Claim C2 status code_bug: the claim (and the spec) say a register value
that does not parse as an integer is treated as a failed lookup and yields
`(HARDWARE_OTHER, "Invalid Reason")`; the code instead feeds the `'ERR'`
sentinel straight to `int(...)`, which raises an uncaught `ValueError` —
contradicting `_get_pmc_register`'s own no-exception sentinel contract and
the comment above the lookups.  At the failing input (both register files
missing) `get_reboot_cause` propagates `ValueError` and does not return the
default tuple. -/
theorem reboot_cause_err_sentinel_raises :
    get_reboot_cause (fun _ => FileState.absent) = .error .valueError ∧
    get_reboot_cause (fun _ => FileState.absent) ≠
      .ok (REBOOT_CAUSE_HARDWARE_OTHER, some "Invalid Reason") := by
  decide

/-- Claim C5 confirmed: the version byte splits into two nibbles rendered
in decimal as `"{high}.{low}"`: the CPLD1 path decodes raw byte 0x23 to
`"2.3"`, and the CPLD2 path decodes a readable file `"vers:2a"` (value
field parsed as hex, 0x2a) to `"2.10"`. -/
theorem cpld_decode_examples :
    (get_cpld_version ⟨some 3, 0x100, some 0x23⟩ (fun _ => FileState.absent) 1).1 = .ok "2.3"
  ∧ decode_nibbles 0x23 = "2.3"
  ∧ (get_cpld_version io0
      (fun p => if p = cpld_version_file 2 then .content "vers:2a" else .absent) 2).1
      = .ok "2.10" := by
  decide

/-- The environment of claim C10: the CPLD2 sysfs file is readable and
holds `"read error"` followed by a newline. -/
def fs_read_error_nl : String → FileState :=
  fun p => if p = cpld_version_file 2 then .content "read error\n" else .absent

/-- Claim C10 confirmed: the `"read error"` comparison happens on the raw
content before newline stripping, so content `"read error\n"` is not
mapped to `'NA'`: the code strips, splits on `':'` (one single field), and
the `[1]` indexing raises an uncaught `IndexError` that propagates out of
`get_firmware_version("CPLD2")`. -/
theorem cpld_read_error_newline_crash :
    (get_cpld_version io0 fs_read_error_nl 2).1 ≠ .ok "NA"
  ∧ (get_cpld_version io0 fs_read_error_nl 2).1 = .error .indexError
  ∧ (get_firmware_version io0 fs_read_error_nl CmdOutcome.oserr "CPLD2").1
      = .error .indexError := by
  decide

/-- Claim C9 confirmed: after construction the fan registry holds exactly
10 entries in tray-major order and the transceiver registry holds exactly
32 entries in port-index order, every entry's type tag, EEPROM path,
control path and sub-port offset being computed purely from the two static
tables (the embedding is a pure function; the constructor performs no
I/O). -/
theorem construction_registries :
    chassis_fan_list =
      [⟨0, 0⟩, ⟨0, 1⟩, ⟨1, 0⟩, ⟨1, 1⟩, ⟨2, 0⟩, ⟨2, 1⟩, ⟨3, 0⟩, ⟨3, 1⟩, ⟨4, 0⟩, ⟨4, 1⟩]
  ∧ chassis_fan_list.length = 10
  ∧ chassis_sfp_list.length = 32
  ∧ chassis_sfp_list.map SfpRec.index = List.range 32
  ∧ chassis_sfp_list.map SfpRec.sfp_type = List.replicate 32 "QSFP"
  ∧ chassis_sfp_list.map SfpRec.eeprom_path =
    ["/sys/class/i2c-adapter/i2c-9/i2c-18/18-0050/eeprom", "/sys/class/i2c-adapter/i2c-9/i2c-19/19-0050/eeprom",
     "/sys/class/i2c-adapter/i2c-9/i2c-20/20-0050/eeprom", "/sys/class/i2c-adapter/i2c-9/i2c-21/21-0050/eeprom",
     "/sys/class/i2c-adapter/i2c-9/i2c-22/22-0050/eeprom", "/sys/class/i2c-adapter/i2c-9/i2c-23/23-0050/eeprom",
     "/sys/class/i2c-adapter/i2c-9/i2c-24/24-0050/eeprom", "/sys/class/i2c-adapter/i2c-9/i2c-25/25-0050/eeprom",
     "/sys/class/i2c-adapter/i2c-8/i2c-26/26-0050/eeprom", "/sys/class/i2c-adapter/i2c-8/i2c-27/27-0050/eeprom",
     "/sys/class/i2c-adapter/i2c-8/i2c-28/28-0050/eeprom", "/sys/class/i2c-adapter/i2c-8/i2c-29/29-0050/eeprom",
     "/sys/class/i2c-adapter/i2c-8/i2c-31/31-0050/eeprom", "/sys/class/i2c-adapter/i2c-8/i2c-30/30-0050/eeprom",
     "/sys/class/i2c-adapter/i2c-8/i2c-33/33-0050/eeprom", "/sys/class/i2c-adapter/i2c-8/i2c-32/32-0050/eeprom",
     "/sys/class/i2c-adapter/i2c-7/i2c-34/34-0050/eeprom", "/sys/class/i2c-adapter/i2c-7/i2c-35/35-0050/eeprom",
     "/sys/class/i2c-adapter/i2c-7/i2c-36/36-0050/eeprom", "/sys/class/i2c-adapter/i2c-7/i2c-37/37-0050/eeprom",
     "/sys/class/i2c-adapter/i2c-7/i2c-38/38-0050/eeprom", "/sys/class/i2c-adapter/i2c-7/i2c-39/39-0050/eeprom",
     "/sys/class/i2c-adapter/i2c-7/i2c-40/40-0050/eeprom", "/sys/class/i2c-adapter/i2c-7/i2c-41/41-0050/eeprom",
     "/sys/class/i2c-adapter/i2c-6/i2c-42/42-0050/eeprom", "/sys/class/i2c-adapter/i2c-6/i2c-43/43-0050/eeprom",
     "/sys/class/i2c-adapter/i2c-6/i2c-44/44-0050/eeprom", "/sys/class/i2c-adapter/i2c-6/i2c-45/45-0050/eeprom",
     "/sys/class/i2c-adapter/i2c-6/i2c-46/46-0050/eeprom", "/sys/class/i2c-adapter/i2c-6/i2c-47/47-0050/eeprom",
     "/sys/class/i2c-adapter/i2c-6/i2c-48/48-0050/eeprom", "/sys/class/i2c-adapter/i2c-6/i2c-49/49-0050/eeprom"]
  ∧ chassis_sfp_list.map SfpRec.sfp_control =
    ["/sys/class/i2c-adapter/i2c-14/14-003e/", "/sys/class/i2c-adapter/i2c-14/14-003e/",
     "/sys/class/i2c-adapter/i2c-14/14-003e/", "/sys/class/i2c-adapter/i2c-14/14-003e/",
     "/sys/class/i2c-adapter/i2c-14/14-003e/", "/sys/class/i2c-adapter/i2c-14/14-003e/",
     "/sys/class/i2c-adapter/i2c-14/14-003e/", "/sys/class/i2c-adapter/i2c-14/14-003e/",
     "/sys/class/i2c-adapter/i2c-14/14-003e/", "/sys/class/i2c-adapter/i2c-14/14-003e/",
     "/sys/class/i2c-adapter/i2c-14/14-003e/", "/sys/class/i2c-adapter/i2c-14/14-003e/",
     "/sys/class/i2c-adapter/i2c-15/15-003e/", "/sys/class/i2c-adapter/i2c-15/15-003e/",
     "/sys/class/i2c-adapter/i2c-15/15-003e/", "/sys/class/i2c-adapter/i2c-15/15-003e/",
     "/sys/class/i2c-adapter/i2c-15/15-003e/", "/sys/class/i2c-adapter/i2c-15/15-003e/",
     "/sys/class/i2c-adapter/i2c-15/15-003e/", "/sys/class/i2c-adapter/i2c-15/15-003e/",
     "/sys/class/i2c-adapter/i2c-15/15-003e/", "/sys/class/i2c-adapter/i2c-15/15-003e/",
     "/sys/class/i2c-adapter/i2c-16/16-003e/", "/sys/class/i2c-adapter/i2c-16/16-003e/",
     "/sys/class/i2c-adapter/i2c-16/16-003e/", "/sys/class/i2c-adapter/i2c-16/16-003e/",
     "/sys/class/i2c-adapter/i2c-16/16-003e/", "/sys/class/i2c-adapter/i2c-16/16-003e/",
     "/sys/class/i2c-adapter/i2c-16/16-003e/", "/sys/class/i2c-adapter/i2c-16/16-003e/",
     "/sys/class/i2c-adapter/i2c-16/16-003e/", "/sys/class/i2c-adapter/i2c-16/16-003e/"]
  ∧ chassis_sfp_list.map SfpRec.port_i2c =
    [0, 1, 2, 3, 4, 5, 6, 7, 8, 9, 10, 11, 0, 1, 2, 3,
     4, 5, 6, 7, 8, 9, 0, 1, 2, 3, 4, 5, 6, 7, 8, 9] := by
  decide

/-- Claim C3 confirmed: the register-read primitive returns the sentinel
`"ERR"` when the mailbox file is missing and on any read error, and
otherwise the file content with trailing newline/carriage-return characters
and leading spaces stripped (e.g. content `"  5\r\n"` yields `"5"`); being a
total `String`-valued function of the environment, it never raises. -/
theorem pmc_register_read_characterization (fs : String → FileState) (reg_name : String) :
    (fs reg_name = .absent → get_pmc_register fs reg_name = "ERR")
  ∧ (fs reg_name = .unreadable → get_pmc_register fs reg_name = "ERR")
  ∧ (∀ s, fs reg_name = .content s →
      get_pmc_register fs reg_name = pyLstrip (pyRstrip s ['\r', '\n']) [' '])
  ∧ get_pmc_register (fun _ => FileState.content "  5\r\n") reg_name = "5" := by
  refine ⟨fun h => ?_, fun h => ?_, fun s h => ?_, ?_⟩
  · simp [get_pmc_register, h]
  · simp [get_pmc_register, h]; decide
  · simp [get_pmc_register, h]
  · rfl

/-- Witness for C3 at a concrete readable register file. -/
theorem pmc_register_read_characterization_witness :
    get_pmc_register (fun _ => FileState.content "  5\r\n") "smf_reset_reason"
      = pyLstrip (pyRstrip "  5\r\n" ['\r', '\n']) [' '] :=
  (pmc_register_read_characterization (fun _ => FileState.content "  5\r\n")
    "smf_reset_reason").2.2.1 "  5\r\n" rfl

/-- Claim C1 confirmed: whenever both registers parse as integers, a reset
reason of 11 consults only the power-cause table (hit: `(cause, None)`;
miss: fall through to `(HARDWARE_OTHER, "Invalid Reason")`, never the
reset-cause table), and any other reset reason consults only the
reset-cause table; the claim's four concrete cases are instances of the
two branches. -/
theorem reboot_cause_two_table_lookup (fs : String → FileState) (r p : Int)
    (hr : pyIntParse (get_pmc_register fs "smf_reset_reason") = some r)
    (hp : pyIntParse (get_pmc_register fs "smf_poweron_reason") = some p) :
    get_reboot_cause fs =
      (if r = 11 then
        (if p = 11 then .ok (REBOOT_CAUSE_POWER_LOSS, none)
         else if p = 22 then .ok (REBOOT_CAUSE_THERMAL_OVERLOAD_CPU, none)
         else if p = 33 then .ok (REBOOT_CAUSE_THERMAL_OVERLOAD_ASIC, none)
         else if p = 44 then .ok (REBOOT_CAUSE_INSUFFICIENT_FAN_SPEED, none)
         else .ok (REBOOT_CAUSE_HARDWARE_OTHER, some "Invalid Reason"))
       else
        (if r = 33 then .ok (REBOOT_CAUSE_WATCHDOG, none)
         else if r = 44 then .ok (REBOOT_CAUSE_NON_HARDWARE, none)
         else if r = 55 then .ok (REBOOT_CAUSE_NON_HARDWARE, none)
         else .ok (REBOOT_CAUSE_HARDWARE_OTHER, some "Invalid Reason"))) := by
  unfold get_reboot_cause pyInt
  rw [hr, hp]
  by_cases h11 : r = 11
  · subst h11
    simp only [if_pos rfl, dictMem, power_reason_dict, dictGet, List.any_cons, List.any_nil,
      List.find?]
    by_cases p11 : p = 11 <;> by_cases p22 : p = 22 <;> by_cases p33 : p = 33 <;>
      by_cases p44 : p = 44
    all_goals simp_all [beq_iff_eq]
    all_goals (intro h; rcases h with h | h | h | h <;> omega)
  · simp only [if_neg h11, dictMem, reset_reason_dict, dictGet, List.any_cons, List.any_nil,
      List.find?]
    by_cases r33 : r = 33 <;> by_cases r44 : r = 44 <;> by_cases r55 : r = 55
    all_goals simp_all [beq_iff_eq]
    all_goals (intro h; rcases h with h | h | h | h <;> omega)

/-- Witness for C1 at `reset_reason = 11`, `power_reason = 11`. -/
theorem reboot_cause_two_table_lookup_witness :
    get_reboot_cause (fun n => if n = "smf_reset_reason" then .content "11" else .content "11")
      = .ok (REBOOT_CAUSE_POWER_LOSS, none) := by
  rw [reboot_cause_two_table_lookup
    (fun n => if n = "smf_reset_reason" then .content "11" else .content "11") 11 11
    (by decide) (by decide)]
  decide

/-- Claim C4 confirmed: for CPLD numbers 2 through 4 the reader yields the
`"NA"` sentinel exactly when the sysfs file is absent, is unreadable, or its
raw content literally equals `"read error"`; in each of those cases the
result is a normal return (no exception escapes), and in no other case is
`"NA"` produced (the nibble decode always contains a dot). -/
theorem cpld_sysfs_na_iff (io_st : IoPortState) (fs : String → FileState) (n : Int)
    (hn : n = 2 ∨ n = 3 ∨ n = 4) :
    (get_cpld_version io_st fs n).1 = .ok "NA" ↔
      (fs (cpld_version_file n) = .absent ∨ fs (cpld_version_file n) = .unreadable ∨
        fs (cpld_version_file n) = .content "read error") := by
  have hne : n ≠ 1 := by rcases hn with h | h | h <;> omega
  unfold get_cpld_version
  rw [if_neg hne]
  rcases hfs : fs (cpld_version_file n) with _ | _ | s
  · simp [hfs]
  · simp [hfs]
  · simp only [hfs]
    by_cases hre : s = "read error"
    · simp [hre]
    · rcases hsp : (pySplit (pyRstrip s ['\r', '\n']) ':')[1]? with _ | field
      · simp [hre, hsp]
      · rcases hhx : pyIntHexParse field with _ | v
        · simp [hre, hsp, hhx]
        · simp [hre, hsp, hhx, decode_nibbles_ne v]

/-- Witness for C4: CPLD2 with an absent sysfs file reads `"NA"`. -/
theorem cpld_sysfs_na_iff_witness :
    (get_cpld_version io0 (fun _ => FileState.absent) 2).1 = .ok "NA" :=
  (cpld_sysfs_na_iff io0 (fun _ => FileState.absent) 2 (Or.inl rfl)).mpr (Or.inl rfl)

/-- Claim C6 counterexample: when `/dev/port` cannot be opened, `os.open`
raises `OSError` (it never returns a negative descriptor), so the reader
propagates an exception instead of returning the `"NA"` sentinel — the
claim's assertion that an open failure "fails silently by returning NA,
never by raising" is false at this input. -/
theorem cpld1_open_failure_raises :
    (get_cpld_version ⟨none, 0x100, some 0x23⟩ (fun _ => FileState.absent) 1).1 = .error .osError
  ∧ (get_cpld_version ⟨none, 0x100, some 0x23⟩ (fun _ => FileState.absent) 1).1 ≠ .ok "NA" := by
  decide

/-- Claim C6 as amended: for CPLD number 1, an `os.open` failure propagates
`OSError` (the source's negative-descriptor guard is unreachable); a seek
landing anywhere but offset 0x100 returns the `"NA"` sentinel without
raising; and otherwise the byte read at that offset is returned as its
two-nibble decode. -/
theorem cpld1_paths (io_st : IoPortState) (fs : String → FileState) :
    (io_st.openOutcome = none → (get_cpld_version io_st fs 1).1 = .error .osError)
  ∧ (∀ fd, io_st.openOutcome = some fd → io_st.seekResult ≠ 0x100 →
      (get_cpld_version io_st fs 1).1 = .ok "NA")
  ∧ (∀ fd b, io_st.openOutcome = some fd → io_st.seekResult = 0x100 → io_st.readByte = some b →
      (get_cpld_version io_st fs 1).1 = .ok (decode_nibbles (Int.ofNat b))) := by
  obtain ⟨oo, sr, rb⟩ := io_st
  refine ⟨fun h => ?_, fun fd h hseek => ?_, fun fd b h hseek hrd => ?_⟩ <;>
    simp only at h <;> subst h
  · rfl
  · have hfd : ¬ ((fd : Int) < 0) := by omega
    simp only at hseek
    simp [get_cpld_version, hfd, hseek]
  · simp only at hseek hrd
    subst hseek
    subst hrd
    have hfd : ¬ ((fd : Int) < 0) := by omega
    simp [get_cpld_version, hfd]

/-- Witness for the amended C6: seek landed at 0 instead of 0x100. -/
theorem cpld1_paths_witness :
    (get_cpld_version ⟨some 3, 0, some 35⟩ (fun _ => FileState.absent) 1).1 = .ok "NA" :=
  ((cpld1_paths ⟨some 3, 0, some 35⟩ (fun _ => FileState.absent)).2.1) 3 rfl (by decide)

/-- Claim C7 confirmed: `get_firmware_version("FPGA1")` float-parses the
`smf_firmware_ver` register with no fallback: any register content that is
not a valid float literal — the `"ERR"` sentinel included — makes the
numeric-format `ValueError` propagate to the caller, and valid content
returns the parsed number. -/
theorem fpga_version_no_fallback (io_st : IoPortState) (fs : String → FileState)
    (cmd : CmdOutcome) :
    pyFloatParse "ERR" = none
  ∧ (pyFloatParse (get_pmc_register fs "smf_firmware_ver") = none →
      (get_firmware_version io_st fs cmd "FPGA1").1 = .error .valueError)
  ∧ (∀ f, pyFloatParse (get_pmc_register fs "smf_firmware_ver") = some f →
      (get_firmware_version io_st fs cmd "FPGA1").1 = .ok (.num f)) := by
  have hd : get_firmware_version io_st fs cmd "FPGA1" =
      (match get_fpga_version fs with
       | .ok f => (.ok (.num f), 0)
       | .error e => (.error e, 0)) := rfl
  refine ⟨by decide, fun h => ?_, fun f h => ?_⟩ <;>
    rw [hd] <;> unfold get_fpga_version <;> rw [h]

/-- Witness for C7 at register content `"1.5"`. -/
theorem fpga_version_no_fallback_witness :
    (get_firmware_version io0 (fun _ => FileState.content "1.5") CmdOutcome.oserr "FPGA1").1
      = .ok (.num (.finite ⟨false, 15, -1⟩)) :=
  ((fpga_version_no_fallback io0 (fun _ => FileState.content "1.5") CmdOutcome.oserr).2.2)
    (.finite ⟨false, 15, -1⟩) (by decide)

/-- Claim C8 counterexample: the CPLD1 path's seek-mismatch early return
comes back with the `/dev/port` descriptor still open (one unreleased
handle), so "the acquired handle is released on every exit path of every
accessor" is false at this input. -/
theorem cpld1_seek_mismatch_leaks :
    get_cpld_version ⟨some 3, 0, some 35⟩ (fun _ => FileState.absent) 1 = (.ok "NA", 1)
  ∧ (get_cpld_version ⟨some 3, 0, some 35⟩ (fun _ => FileState.absent) 1).2 ≠ 0 := by
  decide

/-- Claim C8 as amended: the register mailbox read releases its handle on
every exit path (the `with` block), and the CPLD2-4 sysfs path likewise;
the CPLD1 raw-port path releases the descriptor on an open failure (nothing
was acquired) and on the successful read, but leaks it both on the
seek-mismatch early return and when `os.read` raises. -/
theorem resource_release_by_path (io_st : IoPortState) (fs fs2 : String → FileState)
    (reg_name : String) (n : Int) :
    get_pmc_register_open_handles fs2 reg_name = 0
  ∧ (n ≠ 1 → (get_cpld_version io_st fs n).2 = 0)
  ∧ (io_st.openOutcome = none → (get_cpld_version io_st fs 1).2 = 0)
  ∧ (∀ fd b, io_st.openOutcome = some fd → io_st.seekResult = 0x100 → io_st.readByte = some b →
      (get_cpld_version io_st fs 1).2 = 0)
  ∧ (∀ fd, io_st.openOutcome = some fd → io_st.seekResult ≠ 0x100 →
      (get_cpld_version io_st fs 1).2 = 1)
  ∧ (∀ fd, io_st.openOutcome = some fd → io_st.seekResult = 0x100 → io_st.readByte = none →
      (get_cpld_version io_st fs 1).2 = 1) := by
  obtain ⟨oo, sr, rb⟩ := io_st
  refine ⟨?_, fun hne => ?_, fun h => ?_, fun fd b h hseek hrd => ?_, fun fd h hseek => ?_,
    fun fd h hseek hrd => ?_⟩
  · unfold get_pmc_register_open_handles
    rcases fs2 reg_name <;> rfl
  · unfold get_cpld_version
    rw [if_neg hne]
    rcases fs (cpld_version_file n) with _ | _ | s
    · rfl
    · rfl
    · by_cases hre : s = "read error"
      · simp [hre]
      · rcases hsp : (pySplit (pyRstrip s ['\r', '\n']) ':')[1]? with _ | field
        · simp [hre, hsp]
        · rcases hhx : pyIntHexParse field with _ | v <;> simp [hre, hsp, hhx]
  · simp only at h
    subst h
    rfl
  · simp only at h hseek hrd
    subst h; subst hseek; subst hrd
    have hfd : ¬ ((fd : Int) < 0) := by omega
    simp [get_cpld_version, hfd]
  · simp only at h hseek
    subst h
    have hfd : ¬ ((fd : Int) < 0) := by omega
    simp [get_cpld_version, hfd, hseek]
  · simp only at h hseek hrd
    subst h; subst hseek; subst hrd
    have hfd : ¬ ((fd : Int) < 0) := by omega
    simp [get_cpld_version, hfd]

/-- Witness for the amended C8: a mailbox read leaves nothing open; a
seek-mismatch CPLD1 call leaves one handle open. -/
theorem resource_release_by_path_witness :
    get_pmc_register_open_handles (fun _ => FileState.content "x") "smf_reset_reason" = 0
  ∧ (get_cpld_version ⟨some 3, 0, some 35⟩ (fun _ => FileState.absent) 1).2 = 1 :=
  ⟨(resource_release_by_path ⟨some 3, 0, some 35⟩ (fun _ => FileState.absent)
      (fun _ => FileState.content "x") "smf_reset_reason" 2).1,
   ((resource_release_by_path ⟨some 3, 0, some 35⟩ (fun _ => FileState.absent)
      (fun _ => FileState.content "x") "smf_reset_reason" 2).2.2.2.2.1) 3 rfl (by decide)⟩

end Z9100
